import Mathlib

/-!
Verification development for the EVTrackingApp repository.

The calculations module (src/utils/calculations.py), the data-processing
module (src/utils/data_processing.py), the distance fallback
(src/utils/google_maps.py) and the cached data-access helpers
(src/utils/db.py) are shallowly embedded here.  Pandas DataFrames are
modelled as lists of records; pandas/Python floats are modelled as exact
rationals (and as real numbers for the trigonometric haversine code);
Python round (banker rounding) is modelled exactly; a float division by
zero, which yields NaN or an infinity in pandas, is modelled as the value
none of an Option type.
-/

namespace EVTracking

/-! ## Generic numeric helpers -/

/-- Mean of a list of rationals, as pandas Series.mean computes it
(sum divided by length; Lean division by zero returns 0, matching no
use site on an empty list in the embedded code paths). -/
def meanQ (l : List ℚ) : ℚ := l.sum / (l.length : ℚ)

/-- Banker rounding (round half to even) of a rational to an integer,
the rounding rule of Python round and of pandas/numpy round. -/
def bankersRound (q : ℚ) : ℤ :=
  if Int.fract q = 1 / 2 then (if Even ⌊q⌋ then ⌊q⌋ else ⌊q⌋ + 1) else round q

/-- Python round(q, digits) for a non-negative number of digits. -/
def roundq (digits : ℕ) (q : ℚ) : ℚ :=
  (bankersRound (q * 10 ^ digits) : ℚ) / 10 ^ digits

/-- Division as pandas evaluates it on float columns: a zero denominator
yields NaN or an infinity, collapsed here to none; otherwise the exact
quotient. -/
def pdDiv (num den : ℚ) : Option ℚ :=
  if den = 0 then none else some (num / den)

/-! ## Insertion sort (pandas groupby sorts its group keys) -/

/-- Insert an element into a list so that elements on which le holds
stay in front; used to model the sorted group keys of pandas groupby. -/
def insertSortedBy (le : α → α → Bool) (a : α) : List α → List α
  | [] => [a]
  | b :: bs => if le a b then a :: b :: bs else b :: insertSortedBy le a bs

/-- Insertion sort by a boolean comparison. -/
def sortBy (le : α → α → Bool) (l : List α) : List α :=
  l.foldr (insertSortedBy le) []

/-- Boolean string order used for the sorted plate keys: lexicographic
on the character sequences. -/
def strLe (a b : String) : Bool := decide (a.data < b.data) || a == b

/-! ## Data model (src/utils/calculations.py)

A trip row carries the columns the calculations module reads: date
(modelled as year/month/day, as produced by pd.to_datetime), customer,
plate_number, distance_km and tons_loaded.  An energy row carries
plate_number, period and kwh_per_km. -/

structure YMD where
  year : ℤ
  month : ℕ
  day : ℕ
deriving DecidableEq, Repr

structure TripRow where
  date : YMD
  customer : String
  plate_number : String
  distance_km : ℚ
  tons_loaded : ℚ
deriving DecidableEq, Repr

structure EnergyRow where
  plate_number : String
  period : String
  kwh_per_km : ℚ
deriving DecidableEq, Repr

/-- Intermediate per-truck aggregate, the truck_stats frame of
calculate_truck_metrics before the final column selection: it still
carries the tons_loaded sum. -/
structure TruckStatsRow where
  plate : String
  make : String
  total_trips : ℕ
  total_km : ℚ
  tons_loaded : ℚ
  kwh_per_km : ℚ
  total_kwh : ℚ
  total_tkm : ℚ
  kg_co2 : ℚ
  kwh_per_tkm : ℚ
  kg_co2_per_tkm : ℚ
  kg_co2_per_km : ℚ
deriving DecidableEq, Repr

/-- A returned row of calculate_truck_metrics, holding exactly the
columns of the column_order list of the source (tons_loaded dropped). -/
structure TruckMetricsRow where
  plate : String
  make : String
  total_trips : ℕ
  total_km : ℚ
  kwh_per_km : ℚ
  total_kwh : ℚ
  total_tkm : ℚ
  kg_co2 : ℚ
  kwh_per_tkm : ℚ
  kg_co2_per_tkm : ℚ
  kg_co2_per_km : ℚ
deriving DecidableEq, Repr

/-- The column_order list of calculate_truck_metrics (source lines 84-88):
the columns of the returned frame. -/
def truckMetricsColumnOrder : List String :=
  ["plate", "make", "total_trips", "total_km", "kwh_per_km",
   "total_kwh", "total_tkm", "kg_co2", "kwh_per_tkm",
   "kg_co2_per_tkm", "kg_co2_per_km"]

/-- Columns of the intermediate truck_stats frame right before the final
selection (after reset_index, the renames and adding make). -/
def truckStatsColumns : List String :=
  ["plate", "total_trips", "total_km", "tons_loaded", "total_tkm",
   "kwh_per_km", "total_kwh", "kg_co2", "kwh_per_tkm",
   "kg_co2_per_tkm", "kg_co2_per_km", "make"]

/-! ## calculate_truck_metrics -/

/-- Trips of one truck (the group of a plate under groupby plate_number). -/
def tripsFor (trips : List TripRow) (p : String) : List TripRow :=
  trips.filter (fun t => t.plate_number == p)

/-- The distinct plate numbers of the trips, in sorted order as pandas
groupby produces its group keys. -/
def plates (trips : List TripRow) : List String :=
  sortBy strLe (trips.map (fun t => t.plate_number)).dedup

/-- Energy rows of one truck. -/
def energyFor (energy : List EnergyRow) (p : String) : List EnergyRow :=
  energy.filter (fun e => e.plate_number == p)

/-- The distinct plate numbers of the energy table (index of the
groupby mean series; order is irrelevant, only mean and membership are
used). -/
def energyPlates (energy : List EnergyRow) : List String :=
  (energy.map (fun e => e.plate_number)).dedup

/-- Per-plate mean kwh_per_km: energy_data.groupby(plate_number)
kwh_per_km mean, at plate p. -/
def perPlateMeanKwh (energy : List EnergyRow) (p : String) : ℚ :=
  meanQ ((energyFor energy p).map (fun e => e.kwh_per_km))

/-- Fleet average efficiency: the mean of the per-plate mean series
(avg_efficiency.mean() in the source, taken over all plates of the
energy table). -/
def fleet_avg_efficiency (energy : List EnergyRow) : ℚ :=
  meanQ ((energyPlates energy).map (perPlateMeanKwh energy))

/-- Efficiency assigned to a truck: the per-plate mean after the left
join when the plate has energy rows, and the fleet average via fillna
otherwise. -/
def truckKwhPerKm (energy : List EnergyRow) (p : String) : ℚ :=
  if (energyFor energy p).isEmpty then fleet_avg_efficiency energy
  else perPlateMeanKwh energy p

/-- One row of the truck_stats aggregate for plate p, following
calculate_truck_metrics lines 22-81: trip count, distance and cargo
sums, ton-kilometers, and the energy/emission columns (zero-filled when
the energy table is empty). -/
def truckStatRow (trips : List TripRow) (energy : List EnergyRow)
    (emission_factor : ℚ) (p : String) : TruckStatsRow :=
  let ts := tripsFor trips p
  let total_km := (ts.map (fun t => t.distance_km)).sum
  let tons := (ts.map (fun t => t.tons_loaded)).sum
  let total_tkm := (ts.map (fun t => t.distance_km * t.tons_loaded)).sum
  if energy.isEmpty then
    { plate := p, make := "Electric Truck", total_trips := ts.length,
      total_km := total_km, tons_loaded := tons, total_tkm := total_tkm,
      kwh_per_km := 0, total_kwh := 0, kg_co2 := 0,
      kwh_per_tkm := 0, kg_co2_per_tkm := 0, kg_co2_per_km := 0 }
  else
    let kpk := truckKwhPerKm energy p
    let total_kwh := total_km * kpk
    let kg_co2 := total_kwh * emission_factor
    { plate := p, make := "Electric Truck", total_trips := ts.length,
      total_km := total_km, tons_loaded := tons, total_tkm := total_tkm,
      kwh_per_km := kpk, total_kwh := total_kwh, kg_co2 := kg_co2,
      kwh_per_tkm := if 0 < total_tkm then total_kwh / total_tkm else 0,
      kg_co2_per_tkm := if 0 < total_tkm then kg_co2 / total_tkm else 0,
      kg_co2_per_km := if 0 < total_km then kg_co2 / total_km else 0 }

/-- The truck_stats frame: one aggregated row per sorted distinct plate. -/
def truck_stats (trips : List TripRow) (energy : List EnergyRow)
    (emission_factor : ℚ) : List TruckStatsRow :=
  (plates trips).map (truckStatRow trips energy emission_factor)

/-- The final column selection truck_stats[column_order], which drops
the tons_loaded column. -/
def projectStats (r : TruckStatsRow) : TruckMetricsRow :=
  { plate := r.plate, make := r.make, total_trips := r.total_trips,
    total_km := r.total_km, kwh_per_km := r.kwh_per_km,
    total_kwh := r.total_kwh, total_tkm := r.total_tkm,
    kg_co2 := r.kg_co2, kwh_per_tkm := r.kwh_per_tkm,
    kg_co2_per_tkm := r.kg_co2_per_tkm, kg_co2_per_km := r.kg_co2_per_km }

/-- calculate_truck_metrics: empty trips give an empty frame, otherwise
the per-plate aggregate restricted to the column_order columns. -/
def calculate_truck_metrics (trips : List TripRow) (energy : List EnergyRow)
    (emission_factor : ℚ) : List TruckMetricsRow :=
  if trips.isEmpty then []
  else (truck_stats trips energy emission_factor).map projectStats

/-! ## calculate_emissions_report -/

/-- A row of the emissions report, after the column selection and the
renames of calculate_emissions_report. -/
structure EmissionsReportRow where
  truck_plate : String
  trips_count : ℕ
  distance_km : ℚ
  ton_kilometers : ℚ
  energy_consumed_kwh : ℚ
  total_co2_kg : ℚ
  energy_efficiency_kwh_km : ℚ
  emissions_per_km : ℚ
  emissions_per_tkm : ℚ
deriving DecidableEq, Repr

/-- calculate_emissions_report: truck metrics restricted to the report
columns under the report names. -/
def calculate_emissions_report (trips : List TripRow) (energy : List EnergyRow)
    (emission_factor : ℚ) : List EmissionsReportRow :=
  if trips.isEmpty then []
  else
    let truck_metrics := calculate_truck_metrics trips energy emission_factor
    if truck_metrics.isEmpty then []
    else
      truck_metrics.map (fun r =>
        { truck_plate := r.plate, trips_count := r.total_trips,
          distance_km := r.total_km, ton_kilometers := r.total_tkm,
          energy_consumed_kwh := r.total_kwh, total_co2_kg := r.kg_co2,
          energy_efficiency_kwh_km := r.kwh_per_km,
          emissions_per_km := r.kg_co2_per_km,
          emissions_per_tkm := r.kg_co2_per_tkm })

/-! ## calculate_customer_emissions -/

/-- The customer emissions summary dictionary. -/
structure CustomerEmissions where
  customer_name : String
  total_trips : ℕ
  total_distance_km : ℚ
  total_cargo_tons : ℚ
  total_tkm : ℚ
  total_emissions_kg : ℚ
  emissions_per_ton : ℚ
  emissions_per_km : ℚ
deriving DecidableEq, Repr

/-- calculate_customer_emissions: none models the empty dictionary of
the early return on empty trips; a customer with no trips gets the
all-zero summary; otherwise totals over the customer trips, a per-trip
emission sum (only trips whose truck has energy rows contribute, each
with distance times the per-truck mean efficiency times the emission
factor), and the zero-guarded ratios, rounded to two decimals. -/
def calculate_customer_emissions (trips : List TripRow)
    (energy : List EnergyRow) (customer_name : String)
    (emission_factor : ℚ) : Option CustomerEmissions :=
  if trips.isEmpty then none
  else
    let customer_trips := trips.filter (fun t => t.customer == customer_name)
    if customer_trips.isEmpty then
      some { customer_name := customer_name, total_trips := 0,
             total_distance_km := 0, total_cargo_tons := 0, total_tkm := 0,
             total_emissions_kg := 0, emissions_per_ton := 0,
             emissions_per_km := 0 }
    else
      let total_distance := (customer_trips.map (fun t => t.distance_km)).sum
      let total_cargo := (customer_trips.map (fun t => t.tons_loaded)).sum
      let total_tkm :=
        (customer_trips.map (fun t => t.distance_km * t.tons_loaded)).sum
      let total_emissions :=
        if energy.isEmpty then 0
        else
          (customer_trips.map (fun t =>
            if (energyFor energy t.plate_number).isEmpty then 0
            else t.distance_km * perPlateMeanKwh energy t.plate_number
                   * emission_factor)).sum
      some { customer_name := customer_name,
             total_trips := customer_trips.length,
             total_distance_km := roundq 2 total_distance,
             total_cargo_tons := roundq 2 total_cargo,
             total_tkm := roundq 2 total_tkm,
             total_emissions_kg := roundq 2 total_emissions,
             emissions_per_ton := roundq 2
               (if 0 < total_cargo then total_emissions / total_cargo else 0),
             emissions_per_km := roundq 2
               (if 0 < total_distance then total_emissions / total_distance
                else 0) }

/-! ## calculate_fleet_kpis -/

/-- The fleet KPI dictionary. -/
structure FleetKpis where
  total_trips : ℕ
  total_distance_km : ℚ
  total_cargo_tons : ℚ
  total_tkm : ℚ
  active_trucks : ℕ
  unique_customers : ℕ
  avg_load_per_trip : ℚ
  avg_distance_per_trip : ℚ
  utilization_tkm_per_truck : ℚ
  total_energy_kwh : ℚ
  total_emissions_kg : ℚ
  fleet_avg_efficiency_kwh_km : ℚ
  energy_per_tkm : ℚ
  emissions_per_tkm : ℚ
  emissions_per_ton : ℚ
deriving DecidableEq, Repr

/-- calculate_fleet_kpis: none models the empty dictionary returned on
empty trips; otherwise the fleet totals, the zero-guarded per-trip and
per-truck averages, the energy/emission totals taken from
calculate_truck_metrics when energy data is present, and the
zero-guarded efficiency ratios, rounded as in the source. -/
def calculate_fleet_kpis (trips : List TripRow) (energy : List EnergyRow)
    (emission_factor : ℚ) : Option FleetKpis :=
  if trips.isEmpty then none
  else
    let total_trips := trips.length
    let total_distance := (trips.map (fun t => t.distance_km)).sum
    let total_cargo := (trips.map (fun t => t.tons_loaded)).sum
    let total_tkm := (trips.map (fun t => t.distance_km * t.tons_loaded)).sum
    let active_trucks := ((trips.map (fun t => t.plate_number)).dedup).length
    let unique_customers := ((trips.map (fun t => t.customer)).dedup).length
    let avg_load_per_trip :=
      if 0 < total_trips then total_cargo / (total_trips : ℚ) else 0
    let avg_distance_per_trip :=
      if 0 < total_trips then total_distance / (total_trips : ℚ) else 0
    let utilization_tkm_per_truck :=
      if 0 < active_trucks then total_tkm / (active_trucks : ℚ) else 0
    let energyTriple : ℚ × ℚ × ℚ :=
      if energy.isEmpty then (0, 0, 0)
      else
        let truck_metrics := calculate_truck_metrics trips energy emission_factor
        if truck_metrics.isEmpty then (0, 0, 0)
        else ((truck_metrics.map (fun r => r.total_kwh)).sum,
              (truck_metrics.map (fun r => r.kg_co2)).sum,
              meanQ (truck_metrics.map (fun r => r.kwh_per_km)))
    let total_energy := energyTriple.1
    let total_emissions := energyTriple.2.1
    let fleet_avg := energyTriple.2.2
    let energy_per_tkm :=
      if 0 < total_tkm then total_energy / total_tkm else 0
    let emissions_per_tkm :=
      if 0 < total_tkm then total_emissions / total_tkm else 0
    let emissions_per_ton :=
      if 0 < total_cargo then total_emissions / total_cargo else 0
    some { total_trips := total_trips,
           total_distance_km := roundq 2 total_distance,
           total_cargo_tons := roundq 2 total_cargo,
           total_tkm := roundq 2 total_tkm,
           active_trucks := active_trucks,
           unique_customers := unique_customers,
           avg_load_per_trip := roundq 2 avg_load_per_trip,
           avg_distance_per_trip := roundq 2 avg_distance_per_trip,
           utilization_tkm_per_truck := roundq 2 utilization_tkm_per_truck,
           total_energy_kwh := roundq 2 total_energy,
           total_emissions_kg := roundq 2 total_emissions,
           fleet_avg_efficiency_kwh_km := roundq 3 fleet_avg,
           energy_per_tkm := roundq 3 energy_per_tkm,
           emissions_per_tkm := roundq 3 emissions_per_tkm,
           emissions_per_ton := roundq 3 emissions_per_ton }

/-! ## calculate_monthly_summary -/

/-- A row of the monthly summary; year_month is the period key
(year, month) of dt.to_period with frequency M. -/
structure MonthlySummaryRow where
  year_month : ℤ × ℕ
  trips_count : ℕ
  distance_km : ℚ
  cargo_tons : ℚ
  tkm : ℚ
  active_trucks : ℕ
  customers_served : ℕ
  energy_kwh : ℚ
  emissions_kg_co2 : ℚ
  avg_efficiency_kwh_km : ℚ
  emissions_per_tkm : ℚ
deriving DecidableEq, Repr

/-- The period key of a trip. -/
def year_month (t : TripRow) : ℤ × ℕ := (t.date.year, t.date.month)

/-- Boolean order on period keys (pandas groupby sorts periods). -/
def ymLe (a b : ℤ × ℕ) : Bool :=
  decide (a.1 < b.1) || (a.1 == b.1 && a.2 ≤ b.2)

/-- Distinct period keys of the trips in chronological order. -/
def months (trips : List TripRow) : List (ℤ × ℕ) :=
  sortBy ymLe (trips.map year_month).dedup

/-- calculate_monthly_summary: one row per distinct month, each filled
from the fleet KPIs of that month (the fleet_kpis.get defaults 0 apply
only to the empty dictionary, which a non-empty month group never
produces). -/
def calculate_monthly_summary (trips : List TripRow) (energy : List EnergyRow)
    (emission_factor : ℚ) : List MonthlySummaryRow :=
  if trips.isEmpty then []
  else
    (months trips).map (fun ym =>
      let month_data := trips.filter (fun t => year_month t == ym)
      match calculate_fleet_kpis month_data energy emission_factor with
      | none =>
          { year_month := ym, trips_count := 0, distance_km := 0,
            cargo_tons := 0, tkm := 0, active_trucks := 0,
            customers_served := 0, energy_kwh := 0, emissions_kg_co2 := 0,
            avg_efficiency_kwh_km := 0, emissions_per_tkm := 0 }
      | some k =>
          { year_month := ym, trips_count := k.total_trips,
            distance_km := k.total_distance_km,
            cargo_tons := k.total_cargo_tons, tkm := k.total_tkm,
            active_trucks := k.active_trucks,
            customers_served := k.unique_customers,
            energy_kwh := k.total_energy_kwh,
            emissions_kg_co2 := k.total_emissions_kg,
            avg_efficiency_kwh_km := k.fleet_avg_efficiency_kwh_km,
            emissions_per_tkm := k.emissions_per_tkm })

/-! ## benchmark_truck_performance

The three vs-fleet columns are plain float divisions with no zero
guard: a zero fleet average makes pandas produce NaN or an infinity,
modelled as none by pdDiv. -/

/-- A benchmarked row: the truck metrics columns plus the added
comparison columns. -/
structure BenchmarkRow extends TruckMetricsRow where
  efficiency_vs_fleet : Option ℚ
  emissions_per_km_vs_fleet : Option ℚ
  emissions_per_tkm_vs_fleet : Option ℚ
  efficiency_category : String
deriving DecidableEq, Repr

/-- The efficiency category lambda: every comparison with NaN is false,
so a NaN (or plus infinity) percentage falls through to the final
branch; both are collapsed to none by the model. -/
def efficiencyCategory (x : Option ℚ) : String :=
  match x with
  | some v =>
      if v < -10 then "Excellent"
      else if v < 0 then "Good"
      else if v < 10 then "Average"
      else "Needs Improvement"
  | none => "Needs Improvement"

/-- One vs-fleet percentage column entry:
((value - fleet_avg) / fleet_avg * 100).round(1). -/
def vsFleet (value fleet_avg : ℚ) : Option ℚ :=
  (pdDiv (value - fleet_avg) fleet_avg).map (fun x => roundq 1 (x * 100))

/-- benchmark_truck_performance lines 435-463. -/
def benchmark_truck_performance (truck_metrics : List TruckMetricsRow) :
    List BenchmarkRow :=
  if truck_metrics.isEmpty then []
  else
    let fleet_avg_efficiency := meanQ (truck_metrics.map (fun r => r.kwh_per_km))
    let fleet_avg_emissions_per_km :=
      meanQ (truck_metrics.map (fun r => r.kg_co2_per_km))
    let fleet_avg_emissions_per_tkm :=
      meanQ (truck_metrics.map (fun r => r.kg_co2_per_tkm))
    truck_metrics.map (fun r =>
      let eff := vsFleet r.kwh_per_km fleet_avg_efficiency
      { toTruckMetricsRow := r,
        efficiency_vs_fleet := eff,
        emissions_per_km_vs_fleet :=
          vsFleet r.kg_co2_per_km fleet_avg_emissions_per_km,
        emissions_per_tkm_vs_fleet :=
          vsFleet r.kg_co2_per_tkm fleet_avg_emissions_per_tkm,
        efficiency_category := efficiencyCategory eff })

/-! ## clean_energy_data (src/utils/data_processing.py)

An input row of the energy frame: any column may hold a null.  The
kwh_per_km column is modelled after pd.to_numeric with errors coerce,
so none stands for a null or non-numeric cell and some v for the parsed
numeric value. -/

structure RawEnergyRow where
  plate_number : Option String
  kwh_per_km : Option ℚ
  period : Option String
deriving DecidableEq, Repr

/-- astype(str).str.strip() on a possibly-null cell: a pandas null
prints as the literal string nan, a string is stripped. -/
def pyAstypeStr (o : Option String) : String :=
  match o with
  | some s => s.trim
  | none => "nan"

/-- clean_energy_data: stringify the plate column, keep only rows whose
kwh_per_km lies in the band, stringify the period column, then dropna.
A comparison of NaN with a number is false, so the band filter already
removes rows whose kwh_per_km is null or non-numeric. -/
def clean_energy_data (rows : List RawEnergyRow) : List RawEnergyRow :=
  let step1 := rows.map (fun r =>
    { r with plate_number := some (pyAstypeStr r.plate_number) })
  let step2 := step1.filter (fun r =>
    match r.kwh_per_km with
    | some v => decide (1 / 10 ≤ v) && decide (v ≤ 10)
    | none => false)
  let step3 := step2.map (fun r =>
    { r with period := some (pyAstypeStr r.period) })
  step3.filter (fun r =>
    r.plate_number.isSome && r.kwh_per_km.isSome && r.period.isSome)

/-! ## Haversine fallback (src/utils/google_maps.py)

Python floats and the functions of the math module are modelled over
the real numbers.  A well-formed lat,lng string is modelled by the pair
of coordinates it parses to (the try/except of
calculate_distance_fallback succeeds exactly on well-formed input). -/

/-- math.radians. -/
noncomputable def radians (x : ℝ) : ℝ := x * Real.pi / 180

open scoped Classical in
/-- Banker rounding over the reals, the rule of Python round. -/
noncomputable def bankersRoundR (x : ℝ) : ℤ :=
  if Int.fract x = 1 / 2 then (if Even ⌊x⌋ then ⌊x⌋ else ⌊x⌋ + 1) else round x

/-- Python round(x, 2) over the reals. -/
noncomputable def round2R (x : ℝ) : ℝ := (bankersRoundR (x * 100) : ℝ) / 100

/-- The haversine intermediate a of the source:
sin(dlat/2)**2 + cos(lat1) * cos(lat2) * sin(dlng/2)**2, after the
degrees-to-radians conversion. -/
noncomputable def haversineA (lat1 lng1 lat2 lng2 : ℝ) : ℝ :=
  Real.sin ((radians lat2 - radians lat1) / 2) ^ 2 +
    Real.cos (radians lat1) * Real.cos (radians lat2) *
      Real.sin ((radians lng2 - radians lng1) / 2) ^ 2

/-- calculate_haversine_distance: c = 2 * asin(sqrt(a)), earth radius
6371 km, result rounded to two decimals. -/
noncomputable def calculate_haversine_distance (lat1 lng1 lat2 lng2 : ℝ) : ℝ :=
  round2R (2 * Real.arcsin (Real.sqrt (haversineA lat1 lng1 lat2 lng2)) * 6371)

/-- calculate_distance_fallback on a pair of well-formed coordinate
strings, each given by the (lat, lng) pair it parses to; the parse
succeeds, so the except branch returning None is not taken. -/
noncomputable def calculate_distance_fallback (from_coords to_coords : ℝ × ℝ) :
    Option ℝ :=
  some (calculate_haversine_distance from_coords.1 from_coords.2
          to_coords.1 to_coords.2)

/-! ## Cached read helpers (src/utils/db.py) -/

/-- A database row as returned by the REST client: a record of column
name / value pairs. -/
def DBRow : Type := List (String × String)

instance : DecidableEq DBRow := by unfold DBRow; infer_instance

/-- The full argument tuple of fetch_table, the memoization key. -/
structure FetchTableKey where
  table_name : String
  select : String
  limit : Option ℕ
  order_by : Option String
  desc : Bool
deriving DecidableEq, Repr

/-- The full argument tuple of fetch_table_where, the memoization key;
the eq / gte / lte / ilike dictionaries are modelled as association
lists. -/
structure FetchTableWhereKey where
  table_name : String
  select : String
  eq : List (String × String)
  gte : List (String × String)
  lte : List (String × String)
  ilike : List (String × String)
  order_by : Option String
  desc : Bool
  limit : Option ℕ
deriving DecidableEq, Repr

/-- Modelled from the spec: the fixed-TTL result cache that the UI
framework decorator st.cache_data(ttl=60) wraps around fetch_table and
fetch_table_where; the decorator implementation is framework code not
under src/.  The cache maps an argument tuple to a stored result
together with the time it was stored; time is a logical clock in
seconds. -/
structure TTLCache (κ ν : Type) where
  entries : κ → Option (ν × ℕ)

/-- Modelled from the spec: a cache lookup at time now; a stored entry
answers only while younger than the TTL. -/
def cacheGet (c : TTLCache κ ν) (ttl now : ℕ) (k : κ) : Option ν :=
  match c.entries k with
  | some (v, t0) => if now < t0 + ttl then some v else none
  | none => none

/-- Modelled from the spec: one memoized call at time now.  A fresh
cached value is returned as is (third component false: the database was
not queried); otherwise the query runs and its result is stored with
the current time (third component true). -/
def cachedCall [DecidableEq κ] (query : κ → ν) (ttl : ℕ) (c : TTLCache κ ν)
    (now : ℕ) (k : κ) : ν × TTLCache κ ν × Bool :=
  match cacheGet c ttl now k with
  | some v => (v, c, false)
  | none =>
      (query k,
       ⟨fun k2 => if k2 = k then some (query k, now) else c.entries k2⟩,
       true)

/-- Modelled from the spec: the manual cache clear, which drops every
entry. -/
def cacheClear (κ ν : Type) : TTLCache κ ν := ⟨fun _ => none⟩

/-- fetch_table: the select query (abstracted as the function db from
argument tuple to result rows) memoized with ttl 60 seconds. -/
def fetch_table (db : FetchTableKey → List DBRow)
    (c : TTLCache FetchTableKey (List DBRow)) (now : ℕ)
    (k : FetchTableKey) : List DBRow × TTLCache FetchTableKey (List DBRow) × Bool :=
  cachedCall db 60 c now k

/-- fetch_table_where: the filtered select query memoized with ttl 60
seconds. -/
def fetch_table_where (db : FetchTableWhereKey → List DBRow)
    (c : TTLCache FetchTableWhereKey (List DBRow)) (now : ℕ)
    (k : FetchTableWhereKey) :
    List DBRow × TTLCache FetchTableWhereKey (List DBRow) × Bool :=
  cachedCall db 60 c now k

/-- Concrete trip whose ton-kilometer product has three decimals. -/
def tripRound : TripRow := ⟨⟨2025, 1, 1⟩, "c", "P1", 1, 1111 / 1000⟩

/-- Concrete sample data shared by several witnesses. -/
def enA : EnergyRow := ⟨"P1", "2025-01", 2⟩

/-- A trip with zero distance and zero load: its truck aggregates have
total_tkm = 0 and total_km = 0. -/
def tripZ : TripRow := ⟨⟨2025, 1, 1⟩, "c", "PZ", 0, 0⟩

/-- The truck metrics row of tripZ against the energy table [enA]. -/
def rowW : TruckMetricsRow := projectStats (truckStatRow [tripZ] [enA] 1 "PZ")

/-- C1 as stated by the spec: every per-unit ratio of the calculations
module, including the three percentage-difference columns of
benchmark_truck_performance, is guarded against a zero denominator and
yields 0 there. -/
def ratioGuardClaim : Prop :=
  (∀ (trips : List TripRow) (energy : List EnergyRow) (ef : ℚ)
      (row : TruckMetricsRow), row ∈ calculate_truck_metrics trips energy ef →
    (row.total_tkm = 0 → row.kwh_per_tkm = 0 ∧ row.kg_co2_per_tkm = 0) ∧
      (row.total_km = 0 → row.kg_co2_per_km = 0)) ∧
  (∀ (trips : List TripRow) (energy : List EnergyRow) (name : String) (ef : ℚ)
      (c : CustomerEmissions),
    calculate_customer_emissions trips energy name ef = some c →
      (((trips.filter (fun t => t.customer == name)).map
          (fun t => t.tons_loaded)).sum = 0 → c.emissions_per_ton = 0) ∧
        (((trips.filter (fun t => t.customer == name)).map
            (fun t => t.distance_km)).sum = 0 → c.emissions_per_km = 0)) ∧
  (∀ (tm : List TruckMetricsRow) (b : BenchmarkRow),
    b ∈ benchmark_truck_performance tm →
      (meanQ (tm.map (fun r => r.kwh_per_km)) = 0 →
          b.efficiency_vs_fleet = some 0) ∧
        (meanQ (tm.map (fun r => r.kg_co2_per_km)) = 0 →
            b.emissions_per_km_vs_fleet = some 0) ∧
          (meanQ (tm.map (fun r => r.kg_co2_per_tkm)) = 0 →
              b.emissions_per_tkm_vs_fleet = some 0))

/-- A second-truck trip used by witnesses. -/
def tripB : TripRow := ⟨⟨2025, 1, 2⟩, "c", "P2", 4, 3⟩

/-- A raw energy row with an in-band efficiency and no nulls. -/
def rawA : RawEnergyRow := ⟨some "P1", some 2, some "2025-01"⟩

/-- The row rawA after the two stringifying passes of
clean_energy_data. -/
def cleanedA : RawEnergyRow :=
  ⟨some (pyAstypeStr (some "P1")), some 2, some (pyAstypeStr (some "2025-01"))⟩

/-- Sample cache contents for the C7 witness. -/
def k0 : FetchTableKey := ⟨"ev.trucks", "*", none, some "plate", false⟩

def kw0 : FetchTableWhereKey :=
  ⟨"ev.trips", "*", [("plate_number", "P1")], [], [], [], some "trip_date",
    false, none⟩

def rows0 : List DBRow := [[("plate", "P1")]]

def c0 : TTLCache FetchTableKey (List DBRow) :=
  ⟨fun k2 => if k2 = k0 then some (rows0, 0) else none⟩

def cw0 : TTLCache FetchTableWhereKey (List DBRow) :=
  ⟨fun k2 => if k2 = kw0 then some (rows0, 0) else none⟩

theorem insertSortedBy_perm (le : α → α → Bool) (a : α) (l : List α) :
    List.Perm (insertSortedBy le a l) (a :: l) := by
  induction l with
  | nil => exact List.Perm.refl _
  | cons b bs ih =>
    unfold insertSortedBy
    split
    · exact List.Perm.refl _
    · exact (ih.cons b).trans (List.Perm.swap a b bs)

theorem sortBy_perm (le : α → α → Bool) (l : List α) :
    List.Perm (sortBy le l) l := by
  induction l with
  | nil => exact List.Perm.refl _
  | cons a as ih =>
    exact (insertSortedBy_perm le a (sortBy le as)).trans (ih.cons a)

theorem mem_sortBy {le : α → α → Bool} {l : List α} {a : α} :
    a ∈ sortBy le l ↔ a ∈ l :=
  (sortBy_perm le l).mem_iff

theorem nodup_sortBy {le : α → α → Bool} {l : List α} (h : l.Nodup) :
    (sortBy le l).Nodup :=
  ((sortBy_perm le l).nodup_iff).mpr h

/-! ## Helper lemmas about the embedded definitions -/

theorem roundq_zero (d : ℕ) : roundq d 0 = 0 := by
  unfold roundq bankersRound
  rw [zero_mul, Int.fract_zero]
  norm_num

theorem pdDiv_zero (num : ℚ) : pdDiv num 0 = none := if_pos rfl

theorem vsFleet_zero (v : ℚ) : vsFleet v 0 = none := by
  unfold vsFleet
  rw [pdDiv_zero]
  rfl

theorem truckStatRow_plate (trips : List TripRow) (energy : List EnergyRow)
    (ef : ℚ) (p : String) : (truckStatRow trips energy ef p).plate = p := by
  unfold truckStatRow
  split <;> rfl

theorem truckStatRow_total_trips (trips : List TripRow)
    (energy : List EnergyRow) (ef : ℚ) (p : String) :
    (truckStatRow trips energy ef p).total_trips = (tripsFor trips p).length := by
  unfold truckStatRow
  split <;> rfl

theorem truckStatRow_total_km (trips : List TripRow) (energy : List EnergyRow)
    (ef : ℚ) (p : String) :
    (truckStatRow trips energy ef p).total_km =
      ((tripsFor trips p).map (fun t => t.distance_km)).sum := by
  unfold truckStatRow
  split <;> rfl

theorem truckStatRow_tons_loaded (trips : List TripRow)
    (energy : List EnergyRow) (ef : ℚ) (p : String) :
    (truckStatRow trips energy ef p).tons_loaded =
      ((tripsFor trips p).map (fun t => t.tons_loaded)).sum := by
  unfold truckStatRow
  split <;> rfl

theorem truckStatRow_total_tkm (trips : List TripRow) (energy : List EnergyRow)
    (ef : ℚ) (p : String) :
    (truckStatRow trips energy ef p).total_tkm =
      ((tripsFor trips p).map (fun t => t.distance_km * t.tons_loaded)).sum := by
  unfold truckStatRow
  split <;> rfl

theorem truckStatRow_total_kwh (trips : List TripRow) (energy : List EnergyRow)
    (ef : ℚ) (p : String) :
    (truckStatRow trips energy ef p).total_kwh =
      (truckStatRow trips energy ef p).total_km *
        (truckStatRow trips energy ef p).kwh_per_km := by
  unfold truckStatRow
  split
  · simp
  · rfl

theorem truckStatRow_kg_co2 (trips : List TripRow) (energy : List EnergyRow)
    (ef : ℚ) (p : String) :
    (truckStatRow trips energy ef p).kg_co2 =
      (truckStatRow trips energy ef p).total_kwh * ef := by
  unfold truckStatRow
  split
  · simp
  · rfl

theorem truckStatRow_kwh_per_tkm (trips : List TripRow)
    (energy : List EnergyRow) (ef : ℚ) (p : String) :
    (truckStatRow trips energy ef p).kwh_per_tkm =
      if 0 < (truckStatRow trips energy ef p).total_tkm then
        (truckStatRow trips energy ef p).total_kwh /
          (truckStatRow trips energy ef p).total_tkm
      else 0 := by
  unfold truckStatRow
  split
  · simp
  · rfl

theorem truckStatRow_kg_co2_per_tkm (trips : List TripRow)
    (energy : List EnergyRow) (ef : ℚ) (p : String) :
    (truckStatRow trips energy ef p).kg_co2_per_tkm =
      if 0 < (truckStatRow trips energy ef p).total_tkm then
        (truckStatRow trips energy ef p).kg_co2 /
          (truckStatRow trips energy ef p).total_tkm
      else 0 := by
  unfold truckStatRow
  split
  · simp
  · rfl

theorem truckStatRow_kg_co2_per_km (trips : List TripRow)
    (energy : List EnergyRow) (ef : ℚ) (p : String) :
    (truckStatRow trips energy ef p).kg_co2_per_km =
      if 0 < (truckStatRow trips energy ef p).total_km then
        (truckStatRow trips energy ef p).kg_co2 /
          (truckStatRow trips energy ef p).total_km
      else 0 := by
  unfold truckStatRow
  split
  · simp
  · rfl

theorem truckStatRow_kwh_per_km_of_energy (trips : List TripRow)
    (energy : List EnergyRow) (ef : ℚ) (p : String) (h : ¬energy.isEmpty) :
    (truckStatRow trips energy ef p).kwh_per_km = truckKwhPerKm energy p := by
  unfold truckStatRow
  rw [if_neg h]

theorem truckStatRow_of_no_energy (trips : List TripRow) (ef : ℚ) (p : String)
    (energy : List EnergyRow) (h : energy.isEmpty) :
    (truckStatRow trips energy ef p).kwh_per_km = 0 ∧
      (truckStatRow trips energy ef p).total_kwh = 0 ∧
      (truckStatRow trips energy ef p).kg_co2 = 0 ∧
      (truckStatRow trips energy ef p).kwh_per_tkm = 0 ∧
      (truckStatRow trips energy ef p).kg_co2_per_tkm = 0 ∧
      (truckStatRow trips energy ef p).kg_co2_per_km = 0 := by
  unfold truckStatRow
  rw [if_pos h]
  exact ⟨rfl, rfl, rfl, rfl, rfl, rfl⟩

theorem mem_calculate_truck_metrics {trips : List TripRow}
    {energy : List EnergyRow} {ef : ℚ} {row : TruckMetricsRow}
    (h : row ∈ calculate_truck_metrics trips energy ef) :
    ∃ p, p ∈ plates trips ∧
      row = projectStats (truckStatRow trips energy ef p) := by
  unfold calculate_truck_metrics truck_stats at h
  split at h
  · simp at h
  · rw [List.map_map, List.mem_map] at h
    obtain ⟨p, hp, hrow⟩ := h
    exact ⟨p, hp, hrow.symm⟩

theorem projectStats_fields (r : TruckStatsRow) :
    (projectStats r).plate = r.plate ∧ (projectStats r).make = r.make ∧
      (projectStats r).total_trips = r.total_trips ∧
      (projectStats r).total_km = r.total_km ∧
      (projectStats r).kwh_per_km = r.kwh_per_km ∧
      (projectStats r).total_kwh = r.total_kwh ∧
      (projectStats r).total_tkm = r.total_tkm ∧
      (projectStats r).kg_co2 = r.kg_co2 ∧
      (projectStats r).kwh_per_tkm = r.kwh_per_tkm ∧
      (projectStats r).kg_co2_per_tkm = r.kg_co2_per_tkm ∧
      (projectStats r).kg_co2_per_km = r.kg_co2_per_km :=
  ⟨rfl, rfl, rfl, rfl, rfl, rfl, rfl, rfl, rfl, rfl, rfl⟩

theorem sum_map_tkm_comm (l : List TripRow) :
    (l.map (fun t => t.distance_km * t.tons_loaded)).sum =
      (l.map (fun t => t.tons_loaded * t.distance_km)).sum := by
  induction l with
  | nil => rfl
  | cons a as ih => simp [ih, mul_comm]

/-! ## Claim theorems -/

/-- C8: for every empty trips input, regardless of the energy data and
the emission factor, calculate_truck_metrics, calculate_emissions_report
and calculate_monthly_summary return an empty frame and
calculate_fleet_kpis returns the empty dictionary (none); no
aggregation is attempted and no error is raised. -/
theorem empty_trips_give_empty_results :
    ∀ (energy : List EnergyRow) (ef : ℚ),
      calculate_truck_metrics [] energy ef = [] ∧
        calculate_emissions_report [] energy ef = [] ∧
        calculate_fleet_kpis [] energy ef = none ∧
        calculate_monthly_summary [] energy ef = [] :=
  fun _ _ => ⟨rfl, rfl, rfl, rfl⟩

/-- C3: for every truck row produced by calculate_truck_metrics with
non-empty energy data, kg_co2 equals total_kwh multiplied by the
emission factor, for every value of the emission factor. -/
theorem kg_co2_eq_total_kwh_mul_emission_factor
    (trips : List TripRow) (energy : List EnergyRow) (ef : ℚ)
    (row : TruckMetricsRow) (henergy : energy ≠ [])
    (hrow : row ∈ calculate_truck_metrics trips energy ef) :
    row.kg_co2 = row.total_kwh * ef := by
  obtain ⟨p, -, hrw⟩ := mem_calculate_truck_metrics hrow
  rw [hrw]
  exact truckStatRow_kg_co2 trips energy ef p

/-- C5: with non-empty trips and non-empty energy data, every truck row
whose plate has energy records gets kwh_per_km as the mean of the
kwh_per_km values of those records (joined by plate_number), and every
row satisfies total_kwh = total_km * kwh_per_km: the field is
recomputed by this multiplication, not read from stored state. -/
theorem total_kwh_recomputed_from_mean_efficiency
    (trips : List TripRow) (energy : List EnergyRow) (ef : ℚ)
    (row : TruckMetricsRow) (htrips : trips ≠ []) (henergy : energy ≠ [])
    (hrow : row ∈ calculate_truck_metrics trips energy ef) :
    (energyFor energy row.plate ≠ [] →
        row.kwh_per_km =
          meanQ ((energyFor energy row.plate).map (fun e => e.kwh_per_km))) ∧
      row.total_kwh = row.total_km * row.kwh_per_km := by
  obtain ⟨p, -, hrw⟩ := mem_calculate_truck_metrics hrow
  subst hrw
  have hplate : (projectStats (truckStatRow trips energy ef p)).plate = p :=
    truckStatRow_plate trips energy ef p
  constructor
  · intro hrec
    rw [hplate] at hrec
    have hne : ¬energy.isEmpty := by
      simpa [List.isEmpty_iff] using henergy
    have h1 := truckStatRow_kwh_per_km_of_energy trips energy ef p hne
    have h2 : truckKwhPerKm energy p = perPlateMeanKwh energy p := by
      unfold truckKwhPerKm
      rw [if_neg (by simpa [List.isEmpty_iff] using hrec)]
    show (truckStatRow trips energy ef p).kwh_per_km = _
    rw [h1, h2, hplate]
    rfl
  · exact truckStatRow_total_kwh trips energy ef p

/-- C9: with a non-empty energy table, every truck appearing in the
trips without energy records is assigned the fleet-average efficiency
(the mean over trucks of their mean kwh_per_km), and its total_kwh and
kg_co2 are computed from that average; with an empty energy table all
six energy/emission columns are exactly 0 for every truck. -/
theorem missing_energy_uses_fleet_average
    (trips : List TripRow) (energy : List EnergyRow) (ef : ℚ) :
    (energy ≠ [] →
        ∀ row ∈ calculate_truck_metrics trips energy ef,
          energyFor energy row.plate = [] →
            row.kwh_per_km = fleet_avg_efficiency energy ∧
              row.total_kwh = row.total_km * fleet_avg_efficiency energy ∧
              row.kg_co2 = row.total_km * fleet_avg_efficiency energy * ef) ∧
      (energy = [] →
          ∀ row ∈ calculate_truck_metrics trips energy ef,
            row.kwh_per_km = 0 ∧ row.total_kwh = 0 ∧ row.kg_co2 = 0 ∧
              row.kwh_per_tkm = 0 ∧ row.kg_co2_per_tkm = 0 ∧
              row.kg_co2_per_km = 0) := by
  constructor
  · intro henergy row hrow hmissing
    obtain ⟨p, -, hrw⟩ := mem_calculate_truck_metrics hrow
    subst hrw
    have hplate : (projectStats (truckStatRow trips energy ef p)).plate = p :=
      truckStatRow_plate trips energy ef p
    rw [hplate] at hmissing
    have hne : ¬energy.isEmpty := by simpa [List.isEmpty_iff] using henergy
    have hk : (truckStatRow trips energy ef p).kwh_per_km =
        fleet_avg_efficiency energy := by
      rw [truckStatRow_kwh_per_km_of_energy trips energy ef p hne]
      unfold truckKwhPerKm
      rw [if_pos (by simpa [List.isEmpty_iff] using hmissing)]
    refine ⟨hk, ?_, ?_⟩
    · show (truckStatRow trips energy ef p).total_kwh = _
      rw [truckStatRow_total_kwh trips energy ef p, hk]
      rfl
    · show (truckStatRow trips energy ef p).kg_co2 = _
      rw [truckStatRow_kg_co2 trips energy ef p,
        truckStatRow_total_kwh trips energy ef p, hk]
      rfl
  · intro henergy row hrow
    obtain ⟨p, -, hrw⟩ := mem_calculate_truck_metrics hrow
    subst hrw
    exact truckStatRow_of_no_energy trips ef p energy
      (by simp [henergy, List.isEmpty_iff])

/-- C4 (amended): for every non-empty trips table,
calculate_truck_metrics returns exactly one row per distinct
plate_number of the trips (in sorted key order), with total_trips the
trip count of that truck and total_km the sum of its distance_km
values; the cargo-mass sum is computed in the intermediate truck_stats
aggregation as its tons_loaded column, but the final column selection
drops that column from the returned frame. -/
theorem one_row_per_plate_with_counts_and_sums
    (trips : List TripRow) (energy : List EnergyRow) (ef : ℚ)
    (htrips : trips ≠ []) :
    (calculate_truck_metrics trips energy ef).map (fun r => r.plate) =
        plates trips ∧
      (plates trips).Nodup ∧
      (∀ p, p ∈ plates trips ↔ p ∈ trips.map (fun t => t.plate_number)) ∧
      (∀ row ∈ calculate_truck_metrics trips energy ef,
        row.total_trips = (tripsFor trips row.plate).length ∧
          row.total_km =
            ((tripsFor trips row.plate).map (fun t => t.distance_km)).sum) ∧
      (∀ srow ∈ truck_stats trips energy ef,
        srow.tons_loaded =
          ((tripsFor trips srow.plate).map (fun t => t.tons_loaded)).sum) := by
  refine ⟨?_, nodup_sortBy (List.nodup_dedup _), ?_, ?_, ?_⟩
  · unfold calculate_truck_metrics truck_stats
    rw [if_neg (by simpa [List.isEmpty_iff] using htrips), List.map_map,
      List.map_map]
    have : ∀ p ∈ plates trips,
        (((fun r => TruckMetricsRow.plate r) ∘ projectStats) ∘
          truckStatRow trips energy ef) p = id p := by
      intro p _
      show (projectStats (truckStatRow trips energy ef p)).plate = p
      exact truckStatRow_plate trips energy ef p
    rw [List.map_congr_left this, List.map_id]
  · intro p
    unfold plates
    rw [mem_sortBy, List.mem_dedup]
  · intro row hrow
    obtain ⟨p, -, hrw⟩ := mem_calculate_truck_metrics hrow
    subst hrw
    have hplate : (projectStats (truckStatRow trips energy ef p)).plate = p :=
      truckStatRow_plate trips energy ef p
    rw [hplate]
    exact ⟨truckStatRow_total_trips trips energy ef p,
      truckStatRow_total_km trips energy ef p⟩
  · intro srow hsrow
    unfold truck_stats at hsrow
    rw [List.mem_map] at hsrow
    obtain ⟨p, -, hrw⟩ := hsrow
    subst hrw
    rw [truckStatRow_plate trips energy ef p]
    exact truckStatRow_tons_loaded trips energy ef p

/-- C4 counterexample: the claim reads the cargo-mass sum off the
returned frame, but the final selection truck_stats[column_order] of
the source keeps only the column_order columns: tons_loaded is present
in the intermediate truck_stats frame and absent from the returned
one, so no returned row has a tons_loaded value. -/
theorem tons_loaded_column_dropped :
    "tons_loaded" ∈ truckStatsColumns ∧
      "tons_loaded" ∉ truckMetricsColumnOrder := by
  constructor
  · unfold truckStatsColumns
    simp
  · unfold truckMetricsColumnOrder
    simp

/-! ## Evaluation helpers for concrete rational rounding -/

theorem floorq_eval (q : ℚ) (n : ℤ) (h1 : (n : ℚ) ≤ q) (h2 : q < (n : ℚ) + 1) :
    ⌊q⌋ = n :=
  Int.floor_eq_iff.mpr ⟨h1, by exact_mod_cast h2⟩

theorem fractq_eval (q : ℚ) (n : ℤ) (h : ⌊q⌋ = n) : Int.fract q = q - n := by
  rw [Int.fract, h]

theorem roundq_eval (d : ℕ) (q : ℚ) (n : ℤ)
    (h1 : Int.fract (q * 10 ^ d) ≠ 1 / 2)
    (h2 : ⌊q * 10 ^ d + 1 / 2⌋ = n) :
    roundq d q = (n : ℚ) / 10 ^ d := by
  unfold roundq bankersRound
  rw [if_neg h1, round_eq, h2]

/-- C2 (amended): for every non-empty trips table, the per-truck
total_tkm of calculate_truck_metrics is exactly the sum over the trips
of that truck of tons_loaded times distance_km, and the fleet total_tkm
of calculate_fleet_kpis is that sum over all trips rounded to two
decimal places (the source rounds every rational KPI on output). -/
theorem total_tkm_is_sum_of_tons_times_distance
    (trips : List TripRow) (energy : List EnergyRow) (ef : ℚ)
    (htrips : trips ≠ []) :
    (∀ row ∈ calculate_truck_metrics trips energy ef,
        row.total_tkm =
          ((tripsFor trips row.plate).map
            (fun t => t.tons_loaded * t.distance_km)).sum) ∧
      (∀ k, calculate_fleet_kpis trips energy ef = some k →
        k.total_tkm =
          roundq 2 ((trips.map (fun t => t.tons_loaded * t.distance_km)).sum)) := by
  constructor
  · intro row hrow
    obtain ⟨p, -, hrw⟩ := mem_calculate_truck_metrics hrow
    subst hrw
    have hplate : (projectStats (truckStatRow trips energy ef p)).plate = p :=
      truckStatRow_plate trips energy ef p
    rw [hplate]
    show (truckStatRow trips energy ef p).total_tkm = _
    rw [truckStatRow_total_tkm trips energy ef p, sum_map_tkm_comm]
  · intro k hk
    unfold calculate_fleet_kpis at hk
    rw [if_neg (by simpa [List.isEmpty_iff] using htrips)] at hk
    simp only [Option.some.injEq] at hk
    subst hk
    show roundq 2 ((trips.map (fun t => t.distance_km * t.tons_loaded)).sum) = _
    rw [sum_map_tkm_comm]

/-- C2 counterexample: on the single trip with distance 1 km and load
1.111 tons, the fleet total_tkm returned by calculate_fleet_kpis is
1.11, not the exact sum 1.111 of tons_loaded times distance_km. -/
theorem fleet_total_tkm_rounded_counterexample :
    (calculate_fleet_kpis [tripRound] [] (1 / 2)).map (fun k => k.total_tkm) =
        some (111 / 100) ∧
      (([tripRound].map (fun t => t.tons_loaded * t.distance_km)).sum : ℚ) =
        1111 / 1000 ∧
      (111 / 100 : ℚ) ≠ 1111 / 1000 := by
  have hfl : (⌊(1111 : ℚ) / 1000 * 10 ^ 2 + 1 / 2⌋ : ℤ) = 111 :=
    floorq_eval _ 111 (by norm_num) (by norm_num)
  have hfr : Int.fract ((1111 : ℚ) / 1000 * 10 ^ 2) ≠ 1 / 2 := by
    rw [fractq_eval _ 111 (floorq_eval _ 111 (by norm_num) (by norm_num))]
    norm_num
  have hr : roundq 2 ((1111 : ℚ) / 1000) = 111 / 100 := by
    rw [roundq_eval 2 _ 111 hfr hfl]
    norm_num
  refine ⟨?_, by simp [tripRound], by norm_num⟩
  show some (roundq 2
      (([tripRound].map (fun t => t.distance_km * t.tons_loaded)).sum)) = _
  have hsum : (([tripRound].map
      (fun t => t.distance_km * t.tons_loaded)).sum : ℚ) = 1111 / 1000 := by
    simp [tripRound]
  rw [hsum, hr]

/-! ## Benchmark helper lemmas -/

theorem mem_benchmark {tm : List TruckMetricsRow} {b : BenchmarkRow}
    (h : b ∈ benchmark_truck_performance tm) :
    ∃ r ∈ tm,
      b.efficiency_vs_fleet =
          vsFleet r.kwh_per_km (meanQ (tm.map (fun x => x.kwh_per_km))) ∧
        b.emissions_per_km_vs_fleet =
          vsFleet r.kg_co2_per_km (meanQ (tm.map (fun x => x.kg_co2_per_km))) ∧
        b.emissions_per_tkm_vs_fleet =
          vsFleet r.kg_co2_per_tkm (meanQ (tm.map (fun x => x.kg_co2_per_tkm))) := by
  unfold benchmark_truck_performance at h
  split at h
  · simp at h
  · rw [List.mem_map] at h
    obtain ⟨r, hr, hb⟩ := h
    exact ⟨r, hr, by rw [← hb], by rw [← hb], by rw [← hb]⟩

theorem avg_kwh_tm0_eq_zero :
    meanQ ((calculate_truck_metrics [tripRound] [] 1).map
      (fun r => r.kwh_per_km)) = 0 := by
  have hk0 : (projectStats (truckStatRow [tripRound] [] (1 : ℚ) "P1")).kwh_per_km
      = 0 := (truckStatRow_of_no_energy [tripRound] 1 "P1" [] rfl).1
  show meanQ [(projectStats (truckStatRow [tripRound] [] (1 : ℚ) "P1")).kwh_per_km]
      = 0
  rw [hk0]
  simp [meanQ]

/-- C1 counterexample: on the truck metrics of a single trip with no
energy data, every kwh_per_km is 0, so the fleet-average efficiency is
0; benchmark_truck_performance then evaluates the division by the zero
average and the efficiency_vs_fleet column is NaN (none), not 0. -/
theorem benchmark_division_unguarded : ¬ratioGuardClaim := by
  intro h
  obtain ⟨b, hb⟩ :
      ∃ b, benchmark_truck_performance
        (calculate_truck_metrics [tripRound] [] 1) = [b] := ⟨_, rfl⟩
  have hmem : b ∈ benchmark_truck_performance
      (calculate_truck_metrics [tripRound] [] 1) := by
    rw [hb]
    exact List.mem_singleton_self b
  have hsome := (h.2.2 _ b hmem).1 avg_kwh_tm0_eq_zero
  obtain ⟨r, -, heff, -, -⟩ := mem_benchmark hmem
  rw [heff, avg_kwh_tm0_eq_zero, vsFleet_zero] at hsome
  exact Option.noConfusion hsome

/-- C1 (amended): the per-unit ratios of calculate_truck_metrics
(kwh_per_tkm, kg_co2_per_tkm, kg_co2_per_km) and of
calculate_customer_emissions (emissions_per_ton, emissions_per_km) are
guarded: a zero denominator gives 0.  The percentage-difference columns
of benchmark_truck_performance are not guarded: a zero fleet average is
divided by and the column holds NaN/infinity (none), not 0. -/
theorem ratio_guards_amended :
    (∀ (trips : List TripRow) (energy : List EnergyRow) (ef : ℚ)
        (row : TruckMetricsRow), row ∈ calculate_truck_metrics trips energy ef →
      (row.total_tkm = 0 → row.kwh_per_tkm = 0 ∧ row.kg_co2_per_tkm = 0) ∧
        (row.total_km = 0 → row.kg_co2_per_km = 0)) ∧
    (∀ (trips : List TripRow) (energy : List EnergyRow) (name : String) (ef : ℚ)
        (c : CustomerEmissions),
      calculate_customer_emissions trips energy name ef = some c →
        (((trips.filter (fun t => t.customer == name)).map
            (fun t => t.tons_loaded)).sum = 0 → c.emissions_per_ton = 0) ∧
          (((trips.filter (fun t => t.customer == name)).map
              (fun t => t.distance_km)).sum = 0 → c.emissions_per_km = 0)) ∧
    (∀ (tm : List TruckMetricsRow) (b : BenchmarkRow),
      b ∈ benchmark_truck_performance tm →
        (meanQ (tm.map (fun r => r.kwh_per_km)) = 0 →
            b.efficiency_vs_fleet = none) ∧
          (meanQ (tm.map (fun r => r.kg_co2_per_km)) = 0 →
              b.emissions_per_km_vs_fleet = none) ∧
            (meanQ (tm.map (fun r => r.kg_co2_per_tkm)) = 0 →
                b.emissions_per_tkm_vs_fleet = none)) := by
  refine ⟨?_, ?_, ?_⟩
  · intro trips energy ef row hrow
    obtain ⟨p, -, hrw⟩ := mem_calculate_truck_metrics hrow
    subst hrw
    constructor
    · intro h0
      have h0s : (truckStatRow trips energy ef p).total_tkm = 0 := h0
      constructor
      · show (truckStatRow trips energy ef p).kwh_per_tkm = 0
        rw [truckStatRow_kwh_per_tkm, h0s, if_neg (lt_irrefl 0)]
      · show (truckStatRow trips energy ef p).kg_co2_per_tkm = 0
        rw [truckStatRow_kg_co2_per_tkm, h0s, if_neg (lt_irrefl 0)]
    · intro h0
      have h0s : (truckStatRow trips energy ef p).total_km = 0 := h0
      show (truckStatRow trips energy ef p).kg_co2_per_km = 0
      rw [truckStatRow_kg_co2_per_km, h0s, if_neg (lt_irrefl 0)]
  · intro trips energy name ef c hc
    unfold calculate_customer_emissions at hc
    split at hc
    · exact Option.noConfusion hc
    · split at hc
      · simp only [] at hc
        split at hc
        · simp only [Option.some.injEq] at hc
          subst hc
          exact ⟨fun _ => rfl, fun _ => rfl⟩
        · simp only [Option.some.injEq] at hc
          subst hc
          constructor
          · intro hsum
            show roundq 2 _ = 0
            rw [hsum, if_neg (lt_irrefl 0), roundq_zero]
          · intro hsum
            show roundq 2 _ = 0
            rw [hsum, if_neg (lt_irrefl 0), roundq_zero]
      · simp only [] at hc
        split at hc
        · simp only [Option.some.injEq] at hc
          subst hc
          exact ⟨fun _ => rfl, fun _ => rfl⟩
        · simp only [Option.some.injEq] at hc
          subst hc
          constructor
          · intro hsum
            show roundq 2 _ = 0
            rw [hsum, if_neg (lt_irrefl 0), roundq_zero]
          · intro hsum
            show roundq 2 _ = 0
            rw [hsum, if_neg (lt_irrefl 0), roundq_zero]
  · intro tm b hmem
    obtain ⟨r, -, heff, hekm, hetkm⟩ := mem_benchmark hmem
    refine ⟨fun h0 => ?_, fun h0 => ?_, fun h0 => ?_⟩
    · rw [heff, h0, vsFleet_zero]
    · rw [hekm, h0, vsFleet_zero]
    · rw [hetkm, h0, vsFleet_zero]

theorem avg_emis_tm0_eq_zero :
    meanQ ((calculate_truck_metrics [tripRound] [] 1).map
        (fun r => r.kg_co2_per_km)) = 0 ∧
      meanQ ((calculate_truck_metrics [tripRound] [] 1).map
        (fun r => r.kg_co2_per_tkm)) = 0 := by
  have h := truckStatRow_of_no_energy [tripRound] 1 "P1" [] rfl
  constructor
  · show meanQ [(projectStats
      (truckStatRow [tripRound] [] (1 : ℚ) "P1")).kg_co2_per_km] = 0
    have hv : (projectStats
        (truckStatRow [tripRound] [] (1 : ℚ) "P1")).kg_co2_per_km = 0 :=
      h.2.2.2.2.2
    rw [hv]
    simp [meanQ]
  · show meanQ [(projectStats
      (truckStatRow [tripRound] [] (1 : ℚ) "P1")).kg_co2_per_tkm] = 0
    have hv : (projectStats
        (truckStatRow [tripRound] [] (1 : ℚ) "P1")).kg_co2_per_tkm = 0 :=
      h.2.2.2.2.1
    rw [hv]
    simp [meanQ]

/-- C1 witness: the amended statement instantiated.  The zero-load
zero-distance trip tripZ gives a truck row with total_tkm = 0 and
total_km = 0 whose three guarded ratios are 0; its customer summary has
zero cargo and distance and both guarded ratios 0; and the benchmark of
the no-energy-data truck metrics has all three unguarded vs-fleet
columns NaN (none). -/
theorem ratio_guards_amended_witness :
    (rowW.kwh_per_tkm = 0 ∧ rowW.kg_co2_per_tkm = 0) ∧
      rowW.kg_co2_per_km = 0 ∧
      (calculate_customer_emissions [tripZ] [enA] "c" 1).map
        (fun c => (c.emissions_per_ton, c.emissions_per_km)) = some (0, 0) ∧
      (benchmark_truck_performance (calculate_truck_metrics [tripRound] [] 1)).map
        (fun b => (b.efficiency_vs_fleet, b.emissions_per_km_vs_fleet,
          b.emissions_per_tkm_vs_fleet)) = [(none, none, none)] := by
  have hmemW : rowW ∈ calculate_truck_metrics [tripZ] [enA] 1 :=
    List.mem_singleton_self _
  have htkm0 : rowW.total_tkm = 0 := by
    show (truckStatRow [tripZ] [enA] 1 "PZ").total_tkm = 0
    rw [truckStatRow_total_tkm]
    simp [tripsFor, tripZ]
  have hkm0 : rowW.total_km = 0 := by
    show (truckStatRow [tripZ] [enA] 1 "PZ").total_km = 0
    rw [truckStatRow_total_km]
    simp [tripsFor, tripZ]
  have hG := ratio_guards_amended.1 [tripZ] [enA] 1 rowW hmemW
  refine ⟨hG.1 htkm0, hG.2 hkm0, ?_, ?_⟩
  · obtain ⟨c, hc⟩ :
        ∃ c, calculate_customer_emissions [tripZ] [enA] "c" 1 = some c :=
      ⟨_, rfl⟩
    have h2 := ratio_guards_amended.2.1 [tripZ] [enA] "c" 1 c hc
    have hton := h2.1 (by simp [tripZ])
    have hkm := h2.2 (by simp [tripZ])
    rw [hc]
    simp [hton, hkm]
  · obtain ⟨b, hb⟩ :
        ∃ b, benchmark_truck_performance
          (calculate_truck_metrics [tripRound] [] 1) = [b] := ⟨_, rfl⟩
    have hmemb : b ∈ benchmark_truck_performance
        (calculate_truck_metrics [tripRound] [] 1) := by
      rw [hb]
      exact List.mem_singleton_self b
    have h3 := ratio_guards_amended.2.2 _ b hmemb
    have he1 := h3.1 avg_kwh_tm0_eq_zero
    have he2 := h3.2.1 avg_emis_tm0_eq_zero.1
    have he3 := h3.2.2 avg_emis_tm0_eq_zero.2
    rw [hb]
    simp [he1, he2, he3]

/-- C2 witness: the total_tkm theorem instantiated on the single trip
tripRound with no energy data. -/
theorem total_tkm_witness :
    (projectStats (truckStatRow [tripRound] [] (1 / 2) "P1")).total_tkm =
        ((tripsFor [tripRound]
            (projectStats (truckStatRow [tripRound] [] (1 / 2) "P1")).plate).map
          (fun t => t.tons_loaded * t.distance_km)).sum ∧
      (calculate_fleet_kpis [tripRound] [] (1 / 2)).map (fun k => k.total_tkm) =
        some (roundq 2
          (([tripRound].map (fun t => t.tons_loaded * t.distance_km)).sum)) := by
  have h := total_tkm_is_sum_of_tons_times_distance [tripRound] [] (1 / 2)
    (by simp)
  constructor
  · exact h.1 _ (List.mem_singleton_self _)
  · obtain ⟨k, hk⟩ :
        ∃ k, calculate_fleet_kpis [tripRound] [] (1 / 2) = some k := ⟨_, rfl⟩
    rw [hk]
    simp [h.2 k hk]

/-- C3 witness: kg_co2 = total_kwh * emission_factor on the sample trip
with energy table [enA] and factor 1/2. -/
theorem kg_co2_witness :
    ([enA] : List EnergyRow) ≠ [] ∧
      (projectStats (truckStatRow [tripRound] [enA] (1 / 2) "P1")).kg_co2 =
        (projectStats (truckStatRow [tripRound] [enA] (1 / 2) "P1")).total_kwh *
          (1 / 2) :=
  ⟨by simp,
    kg_co2_eq_total_kwh_mul_emission_factor [tripRound] [enA] (1 / 2) _
      (by simp) (List.mem_singleton_self _)⟩

/-- C5 witness: on the sample trip, the truck with energy records gets
the mean of its kwh_per_km records and total_kwh = total_km *
kwh_per_km. -/
theorem total_kwh_witness :
    (projectStats (truckStatRow [tripRound] [enA] (1 / 2) "P1")).kwh_per_km =
        meanQ ((energyFor [enA]
            (projectStats (truckStatRow [tripRound] [enA] (1 / 2) "P1")).plate).map
          (fun e => e.kwh_per_km)) ∧
      (projectStats (truckStatRow [tripRound] [enA] (1 / 2) "P1")).total_kwh =
        (projectStats (truckStatRow [tripRound] [enA] (1 / 2) "P1")).total_km *
          (projectStats (truckStatRow [tripRound] [enA] (1 / 2) "P1")).kwh_per_km := by
  have h := total_kwh_recomputed_from_mean_efficiency [tripRound] [enA] (1 / 2)
    (projectStats (truckStatRow [tripRound] [enA] (1 / 2) "P1"))
    (by simp) (by simp) (List.mem_singleton_self _)
  have hplate : (projectStats (truckStatRow [tripRound] [enA] (1 / 2) "P1")).plate
      = "P1" := truckStatRow_plate [tripRound] [enA] (1 / 2) "P1"
  have hrec : energyFor [enA]
      (projectStats (truckStatRow [tripRound] [enA] (1 / 2) "P1")).plate ≠ [] := by
    rw [hplate]
    simp [energyFor, enA]
  exact ⟨h.1 hrec, h.2⟩

/-- C4 witness: the per-plate row shape theorem instantiated on the
sample trip. -/
theorem one_row_per_plate_witness :
    (calculate_truck_metrics [tripRound] [enA] (1 / 2)).map (fun r => r.plate) =
        plates [tripRound] ∧
      (plates [tripRound]).Nodup ∧
      ("P1" ∈ plates [tripRound] ↔
        "P1" ∈ [tripRound].map (fun t => t.plate_number)) ∧
      ((projectStats (truckStatRow [tripRound] [enA] (1 / 2) "P1")).total_trips =
        (tripsFor [tripRound]
          (projectStats (truckStatRow [tripRound] [enA] (1 / 2) "P1")).plate).length ∧
        (projectStats (truckStatRow [tripRound] [enA] (1 / 2) "P1")).total_km =
          ((tripsFor [tripRound]
              (projectStats (truckStatRow [tripRound] [enA] (1 / 2) "P1")).plate).map
            (fun t => t.distance_km)).sum) ∧
      (truckStatRow [tripRound] [enA] (1 / 2) "P1").tons_loaded =
        ((tripsFor [tripRound]
            (truckStatRow [tripRound] [enA] (1 / 2) "P1").plate).map
          (fun t => t.tons_loaded)).sum := by
  have h := one_row_per_plate_with_counts_and_sums [tripRound] [enA] (1 / 2)
    (by simp)
  exact ⟨h.1, h.2.1, h.2.2.1 "P1",
    h.2.2.2.1 _ (List.mem_singleton_self _),
    h.2.2.2.2 _ (List.mem_singleton_self _)⟩

/-- C9 witness: with trips of trucks P1 and P2 and energy records only
for P1, the P2 row gets the fleet-average efficiency and its energy and
emissions columns are computed from it; with an empty energy table the
P1 row has all six columns 0. -/
theorem missing_energy_witness :
    ((projectStats (truckStatRow [tripRound, tripB] [enA] 1 "P2")).kwh_per_km =
        fleet_avg_efficiency [enA] ∧
      (projectStats (truckStatRow [tripRound, tripB] [enA] 1 "P2")).total_kwh =
        (projectStats (truckStatRow [tripRound, tripB] [enA] 1 "P2")).total_km *
          fleet_avg_efficiency [enA] ∧
      (projectStats (truckStatRow [tripRound, tripB] [enA] 1 "P2")).kg_co2 =
        (projectStats (truckStatRow [tripRound, tripB] [enA] 1 "P2")).total_km *
          fleet_avg_efficiency [enA] * 1) ∧
      ((projectStats (truckStatRow [tripRound] [] 1 "P1")).kwh_per_km = 0 ∧
        (projectStats (truckStatRow [tripRound] [] 1 "P1")).total_kwh = 0 ∧
        (projectStats (truckStatRow [tripRound] [] 1 "P1")).kg_co2 = 0 ∧
        (projectStats (truckStatRow [tripRound] [] 1 "P1")).kwh_per_tkm = 0 ∧
        (projectStats (truckStatRow [tripRound] [] 1 "P1")).kg_co2_per_tkm = 0 ∧
        (projectStats (truckStatRow [tripRound] [] 1 "P1")).kg_co2_per_km = 0) := by
  constructor
  · have hpl : plates [tripRound, tripB] = ["P1", "P2"] := rfl
    have hmem : projectStats (truckStatRow [tripRound, tripB] [enA] 1 "P2") ∈
        calculate_truck_metrics [tripRound, tripB] [enA] 1 := by
      unfold calculate_truck_metrics truck_stats
      rw [if_neg (by simp), hpl]
      simp
    have hplate : (projectStats
        (truckStatRow [tripRound, tripB] [enA] 1 "P2")).plate = "P2" :=
      truckStatRow_plate [tripRound, tripB] [enA] 1 "P2"
    have hmissing : energyFor [enA] (projectStats
        (truckStatRow [tripRound, tripB] [enA] 1 "P2")).plate = [] := by
      rw [hplate]
      rfl
    exact (missing_energy_uses_fleet_average [tripRound, tripB] [enA] 1).1
      (by simp) _ hmem hmissing
  · exact (missing_energy_uses_fleet_average [tripRound] [] 1).2 rfl _
      (List.mem_singleton_self _)

/-- C10: every row returned by clean_energy_data has a numeric
kwh_per_km in the band 0.1 to 10.0 and no null in any column. -/
theorem clean_energy_rows_in_band (rows : List RawEnergyRow)
    (r : RawEnergyRow) (h : r ∈ clean_energy_data rows) :
    (∃ v, r.kwh_per_km = some v ∧ 1 / 10 ≤ v ∧ v ≤ 10) ∧
      r.plate_number.isSome ∧ r.period.isSome := by
  unfold clean_energy_data at h
  rw [List.mem_filter] at h
  obtain ⟨h3, -⟩ := h
  rw [List.mem_map] at h3
  obtain ⟨r2, hr2, hfe⟩ := h3
  rw [List.mem_filter] at hr2
  obtain ⟨h1, hband⟩ := hr2
  rw [List.mem_map] at h1
  obtain ⟨r1, -, h1e⟩ := h1
  subst hfe
  subst h1e
  cases hkv : r1.kwh_per_km with
  | none => rw [hkv] at hband; simp at hband
  | some v =>
      rw [hkv] at hband
      simp only [Bool.and_eq_true, decide_eq_true_eq] at hband
      exact ⟨⟨v, rfl, hband.1, hband.2⟩, rfl, rfl⟩

/-- C10 witness: the band theorem instantiated on the single-row table
[rawA]. -/
theorem clean_energy_witness :
    (∃ v, cleanedA.kwh_per_km = some v ∧ 1 / 10 ≤ v ∧ v ≤ 10) ∧
      cleanedA.plate_number.isSome ∧ cleanedA.period.isSome := by
  have hmem : cleanedA ∈ clean_energy_data [rawA] := by
    unfold clean_energy_data rawA cleanedA
    norm_num [List.filter, List.map]
  exact clean_energy_rows_in_band [rawA] cleanedA hmem

/-! ## Haversine lemmas -/

theorem round2R_nonneg {x : ℝ} (hx : 0 ≤ x) : 0 ≤ round2R x := by
  unfold round2R bankersRoundR
  have hy : (0 : ℝ) ≤ x * 100 := by positivity
  apply div_nonneg _ (by norm_num : (0 : ℝ) ≤ 100)
  rw [Int.cast_nonneg]
  split
  · split
    · exact Int.floor_nonneg.mpr hy
    · have := Int.floor_nonneg.mpr hy
      omega
  · rw [round_eq]
    exact Int.floor_nonneg.mpr (by linarith)

theorem haversineA_comm (lat1 lng1 lat2 lng2 : ℝ) :
    haversineA lat1 lng1 lat2 lng2 = haversineA lat2 lng2 lat1 lng1 := by
  unfold haversineA
  have h1 : (radians lat1 - radians lat2) / 2 =
      -((radians lat2 - radians lat1) / 2) := by ring
  have h2 : (radians lng1 - radians lng2) / 2 =
      -((radians lng2 - radians lng1) / 2) := by ring
  rw [h1, h2, Real.sin_neg, Real.sin_neg]
  ring

theorem calculate_haversine_distance_nonneg (lat1 lng1 lat2 lng2 : ℝ) :
    0 ≤ calculate_haversine_distance lat1 lng1 lat2 lng2 := by
  unfold calculate_haversine_distance
  apply round2R_nonneg
  have h1 : 0 ≤ Real.arcsin (Real.sqrt (haversineA lat1 lng1 lat2 lng2)) :=
    Real.arcsin_nonneg.mpr (Real.sqrt_nonneg _)
  have := mul_nonneg (mul_nonneg (by norm_num : (0 : ℝ) ≤ 2) h1)
    (by norm_num : (0 : ℝ) ≤ 6371)
  linarith

/-- C6: on every pair of well-formed coordinate strings (given by the
coordinate pairs they parse to), calculate_distance_fallback returns
the haversine great-circle distance with earth radius 6371 km rounded
to two decimals; the distance is non-negative and symmetric in the two
arguments. -/
theorem distance_fallback_is_haversine (p q : ℝ × ℝ) :
    calculate_distance_fallback p q =
        some (calculate_haversine_distance p.1 p.2 q.1 q.2) ∧
      0 ≤ calculate_haversine_distance p.1 p.2 q.1 q.2 ∧
      calculate_distance_fallback p q = calculate_distance_fallback q p := by
  refine ⟨rfl, calculate_haversine_distance_nonneg p.1 p.2 q.1 q.2, ?_⟩
  unfold calculate_distance_fallback calculate_haversine_distance
  rw [haversineA_comm]

/-! ## Cache lemmas -/

theorem cachedCall_hit [DecidableEq κ] (query : κ → ν) (ttl : ℕ)
    (c : TTLCache κ ν) (now : ℕ) (k : κ) (v : ν) (t0 : ℕ)
    (he : c.entries k = some (v, t0)) (hfresh : now < t0 + ttl) :
    cachedCall query ttl c now k = (v, c, false) := by
  unfold cachedCall
  have hget : cacheGet c ttl now k = some v := by
    unfold cacheGet
    rw [he]
    exact if_pos hfresh
  rw [hget]

theorem cachedCall_preserves_fresh [DecidableEq κ] (query : κ → ν) (ttl : ℕ)
    (c : TTLCache κ ν) (now : ℕ) (k j : κ) (v : ν) (t0 : ℕ)
    (he : c.entries j = some (v, t0)) (hfresh : now < t0 + ttl) :
    ((cachedCall query ttl c now k).2.1).entries j = some (v, t0) := by
  unfold cachedCall
  cases hget : cacheGet c ttl now k with
  | some w => exact he
  | none =>
      show (if j = k then some (query k, now) else c.entries j) = some (v, t0)
      by_cases hjk : j = k
      · subst hjk
        unfold cacheGet at hget
        rw [he] at hget
        dsimp only at hget
        rw [if_pos hfresh] at hget
        exact Option.noConfusion hget
      · rw [if_neg hjk]
        exact he

/-- C7: fetch_table and fetch_table_where memoize with a fixed 60
second TTL: a call on an argument tuple whose cached entry is younger
than 60 seconds returns the stored result, leaves the cache unchanged
and does not query the database (third component false); no call on any
argument tuple invalidates an unexpired entry, so only TTL expiry (or
the manual clear, which empties the cache) removes one. -/
theorem fetch_table_ttl_memoization :
    (∀ (db : FetchTableKey → List DBRow)
        (c : TTLCache FetchTableKey (List DBRow)) (now : ℕ)
        (k : FetchTableKey) (v : List DBRow) (t0 : ℕ),
      c.entries k = some (v, t0) → now < t0 + 60 →
        fetch_table db c now k = (v, c, false)) ∧
    (∀ (db : FetchTableWhereKey → List DBRow)
        (c : TTLCache FetchTableWhereKey (List DBRow)) (now : ℕ)
        (k : FetchTableWhereKey) (v : List DBRow) (t0 : ℕ),
      c.entries k = some (v, t0) → now < t0 + 60 →
        fetch_table_where db c now k = (v, c, false)) ∧
    (∀ (db : FetchTableKey → List DBRow)
        (c : TTLCache FetchTableKey (List DBRow)) (now : ℕ)
        (k j : FetchTableKey) (v : List DBRow) (t0 : ℕ),
      c.entries j = some (v, t0) → now < t0 + 60 →
        ((fetch_table db c now k).2.1).entries j = some (v, t0)) ∧
    (∀ (db : FetchTableWhereKey → List DBRow)
        (c : TTLCache FetchTableWhereKey (List DBRow)) (now : ℕ)
        (k j : FetchTableWhereKey) (v : List DBRow) (t0 : ℕ),
      c.entries j = some (v, t0) → now < t0 + 60 →
        ((fetch_table_where db c now k).2.1).entries j = some (v, t0)) ∧
    (∀ k : FetchTableKey,
      (cacheClear FetchTableKey (List DBRow)).entries k = none) :=
  ⟨fun db c now k v t0 he hf => cachedCall_hit db 60 c now k v t0 he hf,
    fun db c now k v t0 he hf => cachedCall_hit db 60 c now k v t0 he hf,
    fun db c now k j v t0 he hf =>
      cachedCall_preserves_fresh db 60 c now k j v t0 he hf,
    fun db c now k j v t0 he hf =>
      cachedCall_preserves_fresh db 60 c now k j v t0 he hf,
    fun _ => rfl⟩

/-- C7 witness: a repeated fetch_table (and fetch_table_where) call 30
seconds after the entry was stored returns the cached rows without
querying, and the entry survives a call on a different key. -/
theorem fetch_table_ttl_witness :
    fetch_table (fun _ => []) c0 30 k0 = (rows0, c0, false) ∧
      fetch_table_where (fun _ => []) cw0 30 kw0 = (rows0, cw0, false) ∧
      ((fetch_table (fun _ => [])
          c0 30 ⟨"ev.locations", "*", none, none, false⟩).2.1).entries k0 =
        some (rows0, 0) ∧
      (cacheClear FetchTableKey (List DBRow)).entries k0 = none := by
  have he : c0.entries k0 = some (rows0, 0) := by
    unfold c0
    simp
  have hew : cw0.entries kw0 = some (rows0, 0) := by
    unfold cw0
    simp
  exact ⟨fetch_table_ttl_memoization.1 _ c0 30 k0 rows0 0 he (by norm_num),
    fetch_table_ttl_memoization.2.1 _ cw0 30 kw0 rows0 0 hew (by norm_num),
    fetch_table_ttl_memoization.2.2.1 _ c0 30 _ k0 rows0 0 he (by norm_num),
    fetch_table_ttl_memoization.2.2.2.2 k0⟩

end EVTracking
